import Mathlib

/-!
# Verification of the Document Detection System front end

Shallow embedding of `app/app.js`: the WebSocket message dispatcher
(`socket.onmessage`), its helpers `updateDetectionUI` and
`addDetectionResult`, the upload-button handler (`uploadBtn.onclick`)
and the client-id generator (`generateClientId`).

Strings are modelled as `List Char` (`JStr`).  JavaScript's
`String.prototype.split`, `String.prototype.startsWith`,
`Array.prototype.join`, `Array.prototype.slice`, `parseFloat` and
`parseInt` are embedded as executable Lean functions with the same
observable behaviour on the inputs the program feeds them.  The DOM
result list (`resultsList`) is modelled as the list of `innerHTML`
strings of its `li` children, in order; `console`/`addLog` output is
modelled as a transcript of structured log events (wall-clock
timestamps, which only decorate log lines, are abstracted away), and
`alert` dialogs as a list of alert strings.
-/

set_option autoImplicit false

/-- JavaScript strings, modelled as lists of characters. -/
abbrev JStr := List Char

/-- Coerce a Lean string literal to the `List Char` model. -/
def strL (s : String) : JStr := s.data

/-- JavaScript `s.split(':')`: split at every `':'`, keeping empty pieces
(`''.split(':')` is `['']`). -/
def splitColon : JStr → List JStr
  | [] => [[]]
  | c :: cs =>
    if c = ':' then [] :: splitColon cs
    else
      match splitColon cs with
      | p :: ps => (c :: p) :: ps
      | [] => [[c]]

/-- JavaScript `s.split(': ')`: split at every non-overlapping occurrence of
the two-character separator `": "`, scanning left to right. -/
def splitColonSpace : JStr → List JStr
  | [] => [[]]
  | [c] => [[c]]
  | c :: d :: rest =>
    if c = ':' ∧ d = ' ' then [] :: splitColonSpace rest
    else
      match splitColonSpace (d :: rest) with
      | p :: ps => (c :: p) :: ps
      | [] => [[c]]

/-- The characters of `s` strictly before the first occurrence of `": "`
(all of `s` when `": "` does not occur).  This is the first field of
`splitColonSpace`. -/
def takeUntilColonSpace : JStr → JStr
  | [] => []
  | [c] => [c]
  | c :: d :: rest =>
    if c = ':' ∧ d = ' ' then []
    else c :: takeUntilColonSpace (d :: rest)

/-- JavaScript `parts.join(sep)`: `[].join` is `''`, a singleton joins to
itself, otherwise the pieces are interleaved with the separator. -/
def joinWith (sep : JStr) : List JStr → JStr
  | [] => []
  | [x] => x
  | x :: y :: l => x ++ sep ++ joinWith sep (y :: l)

/-- Result of a JavaScript numeric parse: a number, an infinity, or the
`NaN` sentinel.  Finite values are carried exactly as rationals; the
claims never depend on IEEE-754 rounding of the numeric value. -/
inductive JNum where
  | nan : JNum
  | inf (neg : Bool) : JNum
  | val (q : ℚ) : JNum
deriving DecidableEq

/-- The whitespace characters stripped by `parseFloat`/`parseInt`. -/
def jsWhitespace (c : Char) : Bool :=
  c == ' ' || c == '\t' || c == '\n' || c == '\r'

/-- Value of a decimal digit character, `none` otherwise. -/
def decDigitVal (c : Char) : Option Nat :=
  if '0' ≤ c ∧ c ≤ '9' then some (c.toNat - 48) else none

/-- Value of a hexadecimal digit character, `none` otherwise. -/
def hexDigitVal (c : Char) : Option Nat :=
  if '0' ≤ c ∧ c ≤ '9' then some (c.toNat - 48)
  else if 'a' ≤ c ∧ c ≤ 'f' then some (c.toNat - 87)
  else if 'A' ≤ c ∧ c ≤ 'F' then some (c.toNat - 55)
  else none

/-- Take the longest prefix of digit characters (as classified by `f`),
returning their values and the rest of the string. -/
def takeDigitsBy (f : Char → Option Nat) : JStr → List Nat × JStr
  | [] => ([], [])
  | c :: rest =>
    match f c with
    | some d =>
      let (ds, r) := takeDigitsBy f rest
      (d :: ds, r)
    | none => ([], c :: rest)

/-- Numeric value of a most-significant-first digit list in the given base. -/
def digitsVal (base : Nat) (ds : List Nat) : Nat :=
  ds.foldl (fun a d => a * base + d) 0

/-- Exponent part of a decimal literal (after the `e`/`E`): optional sign and
digits; an incomplete exponent contributes `0` (JavaScript backtracks over
it). -/
def readExpo (r : JStr) : ℤ :=
  let (eneg, r2) :=
    match r with
    | '-' :: rr => (true, rr)
    | '+' :: rr => (false, rr)
    | _ => (false, r)
  let (eds, _) := takeDigitsBy decDigitVal r2
  if eds.isEmpty then 0
  else if eneg then -(digitsVal 10 eds : ℤ) else (digitsVal 10 eds : ℤ)

/-- JavaScript `parseFloat`: strip leading whitespace, read an optional
sign, then the longest prefix that is `Infinity` or a decimal literal
(`digits [. digits] [exp]` or `. digits [exp]`); `NaN` when no such
prefix exists.  Trailing garbage is ignored. -/
def jsParseFloat (s : JStr) : JNum :=
  let s1 := s.dropWhile jsWhitespace
  let (neg, s2) :=
    match s1 with
    | '-' :: r => (true, r)
    | '+' :: r => (false, r)
    | _ => (false, s1)
  if (strL "Infinity").isPrefixOf s2 then JNum.inf neg
  else
    let (ds1, r1) := takeDigitsBy decDigitVal s2
    let (ds2, r2) :=
      match r1 with
      | '.' :: r => takeDigitsBy decDigitVal r
      | _ => ([], r1)
    if ds1.isEmpty && ds2.isEmpty then JNum.nan
    else
      let expo : ℤ :=
        match r2 with
        | 'e' :: r3 => readExpo r3
        | 'E' :: r3 => readExpo r3
        | _ => 0
      let mantNum : Nat := digitsVal 10 ds1 * 10 ^ ds2.length + digitsVal 10 ds2
      let v : ℚ :=
        if 0 ≤ expo then
          mkRat ((mantNum * 10 ^ expo.toNat : Nat) : ℤ) (10 ^ ds2.length)
        else
          mkRat (mantNum : ℤ) (10 ^ ds2.length * 10 ^ (-expo).toNat)
      JNum.val (if neg then -v else v)

/-- JavaScript `parseInt` with no radix argument: strip whitespace, read an
optional sign, then hexadecimal after a `0x`/`0X` prefix, otherwise
decimal digits; `none` models the `NaN` result when no digit follows. -/
def jsParseInt (s : JStr) : Option ℤ :=
  let s1 := s.dropWhile jsWhitespace
  let (neg, s2) :=
    match s1 with
    | '-' :: r => (true, r)
    | '+' :: r => (false, r)
    | _ => (false, s1)
  let parsed : Option Nat :=
    match s2 with
    | '0' :: c :: r =>
      if c == 'x' || c == 'X' then
        let (ds, _) := takeDigitsBy hexDigitVal r
        if ds.isEmpty then none else some (digitsVal 16 ds)
      else
        let (ds, _) := takeDigitsBy decDigitVal s2
        if ds.isEmpty then none else some (digitsVal 10 ds)
    | _ =>
      let (ds, _) := takeDigitsBy decDigitVal s2
      if ds.isEmpty then none else some (digitsVal 10 ds)
  parsed.map (fun v => if neg then -(v : ℤ) else (v : ℤ))

/-- One `addLog`/`console` transcript entry.  Each constructor corresponds
to one `addLog` call site in `app.js` and carries the data interpolated
into that log line. -/
inductive LogEvent where
  | websocketReceived (data : JStr)
  | connectionAnnounced (id : Option JStr)
  | detectionProcessing
  | detectionSummary (clientId status message : JStr)
  | uiUpdateEnter (clientId : JStr) (current : Option JStr)
  | uiUpdateMismatch
  | uiUpdateMatch
  | addResultCalled (message : JStr)
  | resultDisplayed (message : JStr)
  | pageCountProcessing
  | pageCountSummary (clientId : JStr) (pages : Option ℤ)
  | pageResultProcessing
  | pageResultSummary (pageNum : Option ℤ) (orientation : JStr)
      (width height : Option ℤ)
  | unknownMessage (data : JStr)
  | uploadClicked
  | noFileSelected
  | clientIdGenerated (id : JStr)
  | uploadStarting (name : JStr) (size : Nat)
  | uploadButtonBusy
  | uploadStatus (status : Nat)
  | uploadResultJson (error : Option JStr) (supported : List JStr)
  | uploadErrorLogged (msg : JStr)
  | clientIdSet (id : JStr)
  | resultsCleared
  | uploadButtonReady
  | uploadCompleted
  | uploadFailedLogged (msg : JStr)
deriving DecidableEq

/-- The mutable state of the front end: the two scalar globals `myId` and
`currentClientId` (both `null` initially, hence `Option`), the rendered
result list (`innerHTML` of each `li`, in order), the log transcript,
the alert dialogs shown so far, and the upload button's DOM state. -/
structure AppState where
  myId : Option JStr
  currentClientId : Option JStr
  resultsList : List JStr
  log : List LogEvent
  alerts : List JStr
  uploadBtnDisabled : Bool
  uploadBtnText : JStr
deriving DecidableEq

/-- The state at page load: `myId = null`, `currentClientId = null`, empty
result list. -/
def initState : AppState :=
  { myId := none
    currentClientId := none
    resultsList := []
    log := []
    alerts := []
    uploadBtnDisabled := false
    uploadBtnText := strL "Upload & Analyze" }

/-- JavaScript `clientId !== currentClientId` where `currentClientId` may be
`null` (a string is never strictly equal to `null`). -/
def jsStrNeOpt (s : JStr) (o : Option JStr) : Bool :=
  match o with
  | some t => decide (s ≠ t)
  | none => true

/-- `updateDetectionUI` from `app.js` (lines 189-201): logs its arguments
and whether the client id matches; mutates nothing else. -/
def updateDetectionUI (st : AppState) (clientId _status : JStr)
    (_confidence : JNum) (_message : JStr) : AppState :=
  let st1 := { st with log := st.log ++ [LogEvent.uiUpdateEnter clientId st.currentClientId] }
  if jsStrNeOpt clientId st1.currentClientId then
    { st1 with log := st1.log ++ [LogEvent.uiUpdateMismatch] }
  else
    { st1 with log := st1.log ++ [LogEvent.uiUpdateMatch] }

/-- `addDetectionResult` from `app.js` (lines 203-216): logs, then appends a
new `li` whose `innerHTML` is `message` to the result list,
unconditionally. -/
def addDetectionResult (st : AppState) (_clientId _status : JStr)
    (_confidence : JNum) (message : JStr) : AppState :=
  let st1 := { st with log := st.log ++ [LogEvent.addResultCalled message] }
  let st2 := { st1 with resultsList := st1.resultsList ++ [message] }
  { st2 with log := st2.log ++ [LogEvent.resultDisplayed message] }

/-- The message dispatcher `socket.onmessage` from `app.js` (lines 18-85):
classify one inbound line by prefix and route it. -/
def dispatch (st : AppState) (data : JStr) : AppState :=
  let st0 := { st with log := st.log ++ [LogEvent.websocketReceived data] }
  if (strL "Your ID: ").isPrefixOf data then
    let st1 := { st0 with myId := (splitColonSpace data).get? 1 }
    { st1 with log := st1.log ++ [LogEvent.connectionAnnounced st1.myId] }
  else if (strL "DETECTION:").isPrefixOf data then
    let st1 := { st0 with log := st0.log ++ [LogEvent.detectionProcessing] }
    let parts := splitColon data
    if 5 ≤ parts.length then
      let clientId := parts.getD 1 []
      let status := parts.getD 2 []
      let confidence := jsParseFloat (parts.getD 3 [])
      let message := joinWith (strL ":") (parts.drop 4)
      let st2 := { st1 with log := st1.log ++ [LogEvent.detectionSummary clientId status message] }
      let st3 := updateDetectionUI st2 clientId status confidence message
      addDetectionResult st3 clientId status confidence message
    else st1
  else if (strL "PAGE_COUNT:").isPrefixOf data then
    let st1 := { st0 with log := st0.log ++ [LogEvent.pageCountProcessing] }
    let parts := splitColon data
    if 3 ≤ parts.length then
      let clientId := parts.getD 1 []
      let pages := jsParseInt (parts.getD 2 [])
      { st1 with log := st1.log ++ [LogEvent.pageCountSummary clientId pages] }
    else st1
  else if (strL "PAGE_RESULT:").isPrefixOf data then
    let st1 := { st0 with log := st0.log ++ [LogEvent.pageResultProcessing] }
    let parts := splitColon data
    if 7 ≤ parts.length then
      let _clientId := parts.getD 1 []
      let pageNum := jsParseInt (parts.getD 2 [])
      let orientation := parts.getD 3 []
      let _aspectRatio := jsParseFloat (parts.getD 4 [])
      let width := jsParseInt (parts.getD 5 [])
      let height := jsParseInt (parts.getD 6 [])
      { st1 with log := st1.log ++ [LogEvent.pageResultSummary pageNum orientation width height] }
    else st1
  else
    let st1 := { st0 with log := st0.log ++ [LogEvent.unknownMessage data] }
    { st1 with resultsList := st1.resultsList ++ [data] }

/-- The confidence field of a DETECTION line exactly as `app.js` line 36
computes it: `parseFloat(parts[3])`. -/
def detectionConfidence (data : JStr) : JNum :=
  jsParseFloat ((splitColon data).getD 3 [])

/-- Character for a base-36 digit, as produced by JavaScript
`Number.prototype.toString(36)`: `0`-`9` then `a`-`z`. -/
def base36DigitChar (d : Nat) : Char :=
  if d < 10 then Char.ofNat (48 + d) else Char.ofNat (87 + d)

/-- A base-36 digit character: `0`-`9` or `a`-`z`. -/
def isB36 (c : Char) : Bool :=
  decide (('0' ≤ c ∧ c ≤ '9') ∨ ('a' ≤ c ∧ c ≤ 'z'))

/-- The `m` base-36 digits of `nn` (most significant first, padded with
leading zeros). -/
def natDigitsB36 : Nat → Nat → List Nat
  | 0, _ => []
  | m + 1, nn => natDigitsB36 m (nn / 36) ++ [nn % 36]

/-- Remove trailing zero digits (JavaScript prints no trailing zeros in the
fractional part). -/
def dropTrailingZeros (l : List Nat) : List Nat :=
  (l.reverse.dropWhile (fun d => d == 0)).reverse

/-- `Math.random().toString(36)` where the random double is the dyadic
rational `n / 2 ^ k` with `n < 2 ^ k` (every IEEE-754 double in `[0,1)` is
of this form).  Zero prints as `"0"`; any other value prints as `"0."`
followed by its base-36 fraction digits — the expansion terminates
because `36 ^ m = 2 ^ (2 m) · 3 ^ (2 m)`, so `⌈k/2⌉` digits suffice.
(Engines may round away the far tail of a long expansion; the leading
digits and the overall shape, which are all the program uses, agree.) -/
def randToString36 (k n : Nat) : JStr :=
  if n = 0 then ['0']
  else
    let m := (k + 1) / 2
    let nn := n * 2 ^ (2 * m - k) * 3 ^ (2 * m)
    '0' :: '.' :: (dropTrailingZeros (natDigitsB36 m nn)).map base36DigitChar

/-- JavaScript `s.substr(2, 8)`: up to 8 characters starting at index 2. -/
def substrFrom2Len8 (s : JStr) : JStr := (s.drop 2).take 8

/-- `generateClientId` from `app.js` (lines 109-111):
`'client_' + Math.random().toString(36).substr(2, 8)`, with the random
double given as the dyadic rational `n / 2 ^ k`. -/
def generateClientId (k n : Nat) : JStr :=
  strL "client_" ++ substrFrom2Len8 (randToString36 k n)

/-- The parsed JSON body of a successful upload response: an optional
`error` string and the `supported_types` list shown on rejection. -/
structure UploadJson where
  error : Option JStr
  supported_types : List JStr
deriving DecidableEq

/-- Outcome of `await response.json()`: the parse may reject. -/
inductive JsonOutcome where
  | bad (msg : JStr)
  | parsed (result : UploadJson)
deriving DecidableEq

/-- Outcome of the `fetch` exchange: the request may reject with a network
error, or deliver a response with an ok-flag, a status code and a body. -/
inductive FetchOutcome where
  | netErr (msg : JStr)
  | resp (ok : Bool) (status : Nat) (body : JsonOutcome)
deriving DecidableEq

/-- The `catch` block of `uploadBtn.onclick` (lines 180-186): log the
failure, alert the user, restore the button. -/
def uploadCatch (st : AppState) (msg : JStr) : AppState :=
  let st1 := { st with log := st.log ++ [LogEvent.uploadFailedLogged msg] }
  let st2 := { st1 with alerts := st1.alerts ++ [strL "Error uploading file: " ++ msg] }
  { st2 with uploadBtnText := strL "Upload & Analyze", uploadBtnDisabled := false }

/-- The upload handler `uploadBtn.onclick` from `app.js` (lines 113-187).
`fileSelected` models whether `fileInput.files[0]` exists, `k`/`n` give
the `Math.random()` draw for `generateClientId`, and `outcome` the result
of the `fetch` exchange. -/
def uploadClick (st : AppState) (fileSelected : Bool) (fileName : JStr)
    (fileSize : Nat) (k n : Nat) (outcome : FetchOutcome) : AppState :=
  let st0 := { st with log := st.log ++ [LogEvent.uploadClicked] }
  if !fileSelected then
    let st1 := { st0 with log := st0.log ++ [LogEvent.noFileSelected] }
    { st1 with alerts := st1.alerts ++ [strL "Please select a file first"] }
  else
    let clientId := generateClientId k n
    let st1 := { st0 with log := st0.log ++
      [LogEvent.clientIdGenerated clientId, LogEvent.uploadStarting fileName fileSize] }
    let st2 := { st1 with uploadBtnDisabled := true, uploadBtnText := strL "Uploading...", log := st1.log ++ [LogEvent.uploadButtonBusy] }
    match outcome with
    | .netErr m => uploadCatch st2 m
    | .resp ok status body =>
      let st3 := { st2 with log := st2.log ++ [LogEvent.uploadStatus status] }
      if !ok then uploadCatch st3 (strL "Upload failed")
      else
        match body with
        | .bad m => uploadCatch st3 m
        | .parsed result =>
          let st4 := { st3 with log := st3.log ++
            [LogEvent.uploadResultJson result.error result.supported_types] }
          match result.error with
          | some e =>
            let st5 := { st4 with log := st4.log ++ [LogEvent.uploadErrorLogged e] }
            let st6 := { st5 with alerts := st5.alerts ++
              [strL "Error: " ++ e ++ strL "\nSupported types: " ++
                joinWith (strL ", ") result.supported_types] }
            { st6 with uploadBtnText := strL "Upload & Analyze", uploadBtnDisabled := false }
          | none =>
            let st5 := { st4 with currentClientId := some clientId, log := st4.log ++ [LogEvent.clientIdSet clientId] }
            let st6 := { st5 with resultsList := [], log := st5.log ++ [LogEvent.resultsCleared] }
            let st7 := { st6 with uploadBtnText := strL "Upload & Analyze", uploadBtnDisabled := false, log := st6.log ++ [LogEvent.uploadButtonReady] }
            { st7 with log := st7.log ++ [LogEvent.uploadCompleted] }

/-- The spec's `substring_after_nth_colon`: everything strictly after the
`n`-th colon of `s` (written from the specification's words, to be
compared with the code's `parts.slice(4).join(':')`). -/
def substringAfterColons : Nat → JStr → JStr
  | 0, s => s
  | _ + 1, [] => []
  | n + 1, c :: cs =>
    if c = ':' then substringAfterColons n cs
    else substringAfterColons (n + 1) cs

/-! ## Basic lemmas about the embedded string operations -/

theorem isPrefixOf_append_self (p t : JStr) : p.isPrefixOf (p ++ t) = true := by
  rw [List.isPrefixOf_iff_prefix]
  exact List.prefix_append p t

theorem yourId_nPfx_detection (t : JStr) :
    (strL "Your ID: ").isPrefixOf (strL "DETECTION:" ++ t) = false := rfl

theorem yourId_nPfx_pageCount (t : JStr) :
    (strL "Your ID: ").isPrefixOf (strL "PAGE_COUNT:" ++ t) = false := rfl

theorem yourId_nPfx_pageResult (t : JStr) :
    (strL "Your ID: ").isPrefixOf (strL "PAGE_RESULT:" ++ t) = false := rfl

theorem detection_nPfx_pageCount (t : JStr) :
    (strL "DETECTION:").isPrefixOf (strL "PAGE_COUNT:" ++ t) = false := rfl

theorem detection_nPfx_pageResult (t : JStr) :
    (strL "DETECTION:").isPrefixOf (strL "PAGE_RESULT:" ++ t) = false := rfl

theorem pageCount_nPfx_pageResult (t : JStr) :
    (strL "PAGE_COUNT:").isPrefixOf (strL "PAGE_RESULT:" ++ t) = false := rfl

theorem splitColon_ne_nil (s : JStr) : splitColon s ≠ [] := by
  induction s with
  | nil => simp [splitColon]
  | cons c cs ih =>
    simp only [splitColon]
    split
    · simp
    · split
      · simp
      · simp

theorem splitColon_eq_cons (s : JStr) : ∃ p ps, splitColon s = p :: ps := by
  cases h : splitColon s with
  | nil => exact absurd h (splitColon_ne_nil s)
  | cons p ps => exact ⟨p, ps, rfl⟩

theorem joinWith_head_cons (sep : JStr) (c : Char) (p : JStr) (ps : List JStr) :
    joinWith sep ((c :: p) :: ps) = c :: joinWith sep (p :: ps) := by
  cases ps with
  | nil => rfl
  | cons q qs => simp [joinWith]

theorem joinWith_splitColon (s : JStr) : joinWith [':'] (splitColon s) = s := by
  induction s with
  | nil => rfl
  | cons c cs ih =>
    obtain ⟨p, ps, hps⟩ := splitColon_eq_cons cs
    by_cases h : c = ':'
    · subst h
      rw [show splitColon (':' :: cs) = [] :: splitColon cs from by simp [splitColon]]
      rw [hps]
      rw [hps] at ih
      simpa [joinWith] using ih
    · rw [show splitColon (c :: cs) = (c :: p) :: ps from by simp [splitColon, h, hps]]
      rw [joinWith_head_cons, ← hps, ih]

theorem joinWith_drop_splitColon (s : JStr) : ∀ n, n < (splitColon s).length →
    joinWith [':'] ((splitColon s).drop n) = substringAfterColons n s := by
  induction s with
  | nil =>
    intro n hn
    simp only [splitColon, List.length_cons, List.length_nil] at hn
    have hn0 : n = 0 := by omega
    subst hn0
    rfl
  | cons c cs ih =>
    intro n hn
    by_cases h : c = ':'
    · subst h
      have hsc : splitColon (':' :: cs) = [] :: splitColon cs := by simp [splitColon]
      cases n with
      | zero => simpa [substringAfterColons] using joinWith_splitColon (':' :: cs)
      | succ n =>
        rw [hsc] at hn ⊢
        rw [List.length_cons] at hn
        simp only [List.drop_succ_cons]
        rw [ih n (Nat.lt_of_succ_lt_succ hn)]
        simp [substringAfterColons]
    · obtain ⟨p, ps, hps⟩ := splitColon_eq_cons cs
      have hsc : splitColon (c :: cs) = (c :: p) :: ps := by simp [splitColon, h, hps]
      cases n with
      | zero => simpa [substringAfterColons] using joinWith_splitColon (c :: cs)
      | succ n =>
        rw [hsc] at hn ⊢
        simp only [List.drop_succ_cons]
        have hn2 : n + 1 < (splitColon cs).length := by
          rw [hps]
          simpa using hn
        have hrec := ih (n + 1) hn2
        rw [hps] at hrec
        simp only [List.drop_succ_cons] at hrec
        rw [hrec]
        simp [substringAfterColons, h]

theorem splitColonSpace_ne_nil (s : JStr) : splitColonSpace s ≠ [] := by
  induction s using splitColonSpace.induct <;> simp_all [splitColonSpace]
  split <;> simp_all

theorem splitColonSpace_eq_cons (s : JStr) : ∃ p ps, splitColonSpace s = p :: ps := by
  cases h : splitColonSpace s with
  | nil => exact absurd h (splitColonSpace_ne_nil s)
  | cons p ps => exact ⟨p, ps, rfl⟩

theorem splitColonSpace_head (s : JStr) :
    (splitColonSpace s).head? = some (takeUntilColonSpace s) := by
  induction s using splitColonSpace.induct <;>
    simp_all [splitColonSpace, takeUntilColonSpace]
  split <;> simp_all

theorem splitColonSpace_yourId (rest : JStr) :
    splitColonSpace (strL "Your ID: " ++ rest) =
      strL "Your ID" :: splitColonSpace rest := rfl

/-! ## Projections of the dispatcher helpers -/

theorem updateDetectionUI_resultsList (st : AppState) (a b : JStr) (cf : JNum)
    (m : JStr) : (updateDetectionUI st a b cf m).resultsList = st.resultsList := by
  unfold updateDetectionUI
  dsimp only
  split <;> rfl

theorem updateDetectionUI_myId (st : AppState) (a b : JStr) (cf : JNum)
    (m : JStr) : (updateDetectionUI st a b cf m).myId = st.myId := by
  unfold updateDetectionUI
  dsimp only
  split <;> rfl

theorem updateDetectionUI_currentClientId (st : AppState) (a b : JStr)
    (cf : JNum) (m : JStr) :
    (updateDetectionUI st a b cf m).currentClientId = st.currentClientId := by
  unfold updateDetectionUI
  dsimp only
  split <;> rfl

theorem addDetectionResult_resultsList (st : AppState) (a b : JStr) (cf : JNum)
    (m : JStr) :
    (addDetectionResult st a b cf m).resultsList = st.resultsList ++ [m] := rfl

/-- On a DETECTION line with at least five fields, dispatch appends exactly
the rejoined message field to the result list (whatever the client id). -/
theorem dispatch_detection_resultsList (st : AppState) (t : JStr)
    (h5 : 5 ≤ (splitColon (strL "DETECTION:" ++ t)).length) :
    (dispatch st (strL "DETECTION:" ++ t)).resultsList
      = st.resultsList ++
        [joinWith (strL ":") ((splitColon (strL "DETECTION:" ++ t)).drop 4)] := by
  simp [dispatch, yourId_nPfx_detection, isPrefixOf_append_self, h5,
    addDetectionResult_resultsList, updateDetectionUI_resultsList]

/-! ## Shape of the generated client identifiers -/

theorem natDigitsB36_lt (m : Nat) : ∀ (nn d : Nat), d ∈ natDigitsB36 m nn → d < 36 := by
  induction m with
  | zero =>
    intro nn d hd
    simp [natDigitsB36] at hd
  | succ m ih =>
    intro nn d hd
    simp only [natDigitsB36, List.mem_append, List.mem_singleton] at hd
    rcases hd with hd | hd
    · exact ih _ d hd
    · subst hd
      exact Nat.mod_lt _ (by omega)

theorem mem_of_mem_dropWhile {α : Type} (p : α → Bool) :
    ∀ (l : List α) (a : α), a ∈ l.dropWhile p → a ∈ l := by
  intro l
  induction l with
  | nil =>
    intro a ha
    exact ha
  | cons b bs ih =>
    intro a ha
    rw [List.dropWhile_cons] at ha
    by_cases hp : p b = true
    · rw [if_pos hp] at ha
      exact List.mem_cons_of_mem b (ih a ha)
    · rw [if_neg hp] at ha
      exact ha

theorem dropTrailingZeros_mem {l : List Nat} {d : Nat}
    (hd : d ∈ dropTrailingZeros l) : d ∈ l := by
  unfold dropTrailingZeros at hd
  rw [List.mem_reverse] at hd
  have h2 := mem_of_mem_dropWhile _ _ _ hd
  rwa [List.mem_reverse] at h2

theorem b36Char_in_range : ∀ d, d < 36 → isB36 (base36DigitChar d) = true := by
  decide

theorem randToString36_fraction (k n : Nat) :
    ∀ c ∈ (randToString36 k n).drop 2, isB36 c = true := by
  intro c hc
  unfold randToString36 at hc
  by_cases hn : n = 0
  · simp [hn] at hc
  · rw [if_neg hn] at hc
    simp only [] at hc
    rw [show ∀ ll : JStr, ('0' :: '.' :: ll).drop 2 = ll from fun ll => rfl] at hc
    rw [List.mem_map] at hc
    obtain ⟨d, hd, rfl⟩ := hc
    exact b36Char_in_range d (natDigitsB36_lt _ _ d (dropTrailingZeros_mem hd))

/-! ## The claims -/

/-- C1: the spec requires that a DETECTION event whose clientId differs from
the Active Upload Client Id produce zero list-rendering side effects, but
the code appends the message anyway: `updateDetectionUI` checks the
mismatch yet mutates nothing, while `addDetectionResult` — the function
that actually appends to the rendered list — is called unconditionally.
At active id `"abc123"`, the mismatched line
`"DETECTION:xyz999:done:0.5:ignored"` adds the entry `"ignored"`. -/
theorem mismatched_detection_appends_anyway :
    strL "xyz999" ≠ strL "abc123"
  ∧ (dispatch { initState with currentClientId := some (strL "abc123") }
      (strL "DETECTION:xyz999:done:0.5:ignored")).resultsList ≠
      (initState : AppState).resultsList
  ∧ (dispatch { initState with currentClientId := some (strL "abc123") }
      (strL "DETECTION:xyz999:done:0.5:ignored")).resultsList
      = [strL "ignored"] := by
  refine ⟨by decide, by decide, by decide⟩

/-- C2: a DETECTION line with at least 5 colon-separated fields whose
clientId field equals the Active Upload Client Id appends exactly one new
entry to the rendered result list, whose content is fields 4..end rejoined
with a colon separator. -/
theorem matched_detection_appends_message (st : AppState) (data : JStr)
    (hd : (strL "DETECTION:").isPrefixOf data = true)
    (h5 : 5 ≤ (splitColon data).length)
    (hmatch : st.currentClientId = some ((splitColon data).getD 1 [])) :
    (dispatch st data).resultsList
      = st.resultsList ++ [joinWith (strL ":") ((splitColon data).drop 4)] := by
  rw [List.isPrefixOf_iff_prefix] at hd
  obtain ⟨t, rfl⟩ := hd
  exact dispatch_detection_resultsList st t h5

/-- Witness for C2, the spec's own example: active id `abc123`, input
`"DETECTION:abc123:done:0.97:Looks valid:extra"`, one new entry
`"Looks valid:extra"`. -/
theorem matched_detection_appends_message_witness :
    (strL "DETECTION:").isPrefixOf
        (strL "DETECTION:abc123:done:0.97:Looks valid:extra") = true
  ∧ 5 ≤ (splitColon (strL "DETECTION:abc123:done:0.97:Looks valid:extra")).length
  ∧ ({ initState with currentClientId := some (strL "abc123") } :
      AppState).currentClientId =
      some ((splitColon (strL "DETECTION:abc123:done:0.97:Looks valid:extra")).getD 1 [])
  ∧ (dispatch { initState with currentClientId := some (strL "abc123") }
      (strL "DETECTION:abc123:done:0.97:Looks valid:extra")).resultsList
      = [strL "Looks valid:extra"] := by
  refine ⟨by decide, by decide, by decide, ?_⟩
  rw [matched_detection_appends_message
    { initState with currentClientId := some (strL "abc123") }
    (strL "DETECTION:abc123:done:0.97:Looks valid:extra")
    (by decide) (by decide) (by decide)]
  decide

/-- C3 is refuted: for a line whose remainder itself contains `": "`, the
code `data.split(': ')[1]` keeps only the segment up to the next `": "`,
not the entire remainder.  On `"Your ID: a: b"` the Session Identity
becomes `"a"`, not `"a: b"`. -/
theorem your_id_truncates_at_second_sep :
    (dispatch initState (strL "Your ID: a: b")).myId = some (strL "a")
  ∧ (dispatch initState (strL "Your ID: a: b")).myId ≠ some (strL "a: b") := by
  refine ⟨by decide, by decide⟩

/-- C3 (amended): for every line beginning with `"Your ID: "`, the Session
Identity becomes the segment of the remainder before the next occurrence
of `": "` (the entire remainder only when it contains no further `": "`),
and no result-list, filter-key or alert state changes. -/
theorem your_id_sets_session_identity (st : AppState) (rest : JStr) :
    (dispatch st (strL "Your ID: " ++ rest)).myId
      = some (takeUntilColonSpace rest)
  ∧ (dispatch st (strL "Your ID: " ++ rest)).resultsList = st.resultsList
  ∧ (dispatch st (strL "Your ID: " ++ rest)).currentClientId
      = st.currentClientId
  ∧ (dispatch st (strL "Your ID: " ++ rest)).alerts = st.alerts := by
  obtain ⟨p, ps, hps⟩ := splitColonSpace_eq_cons rest
  have hhead := splitColonSpace_head rest
  rw [hps] at hhead
  have hp : p = takeUntilColonSpace rest := by
    simpa using hhead
  have hget : (splitColonSpace (strL "Your ID: " ++ rest))[1]?
      = some (takeUntilColonSpace rest) := by
    rw [splitColonSpace_yourId, hps, hp]
    simp
  refine ⟨?_, ?_, ?_, ?_⟩ <;>
    simp [dispatch, isPrefixOf_append_self, hget]

/-- C4: round-trip of the DETECTION message field — for every string with at
least 5 colon fields, rejoining fields 4..end with a colon recovers
exactly the substring after the 4th colon, colons inside the message
preserved verbatim. -/
theorem detection_message_roundtrip (s : JStr)
    (h5 : 5 ≤ (splitColon s).length) :
    joinWith (strL ":") ((splitColon s).drop 4) = substringAfterColons 4 s :=
  joinWith_drop_splitColon s 4 (by omega)

/-- Witness for C4 at the spec's example line. -/
theorem detection_message_roundtrip_witness :
    5 ≤ (splitColon (strL "DETECTION:abc123:done:0.97:Looks valid:extra")).length
  ∧ joinWith (strL ":")
      ((splitColon (strL "DETECTION:abc123:done:0.97:Looks valid:extra")).drop 4)
      = substringAfterColons 4 (strL "DETECTION:abc123:done:0.97:Looks valid:extra") :=
  ⟨by decide,
   detection_message_roundtrip
     (strL "DETECTION:abc123:done:0.97:Looks valid:extra") (by decide)⟩

/-- C5: every line beginning with `"PAGE_COUNT:"` or `"PAGE_RESULT:"` —
whatever its field count and whether its numeric fields parse — leaves the
rendered result list unchanged (dispatch only logs). -/
theorem page_events_never_touch_results (st : AppState) (t u : JStr) :
    (dispatch st (strL "PAGE_COUNT:" ++ t)).resultsList = st.resultsList
  ∧ (dispatch st (strL "PAGE_RESULT:" ++ u)).resultsList = st.resultsList := by
  constructor
  · simp only [dispatch, yourId_nPfx_pageCount, detection_nPfx_pageCount,
      isPrefixOf_append_self, Bool.false_eq_true, if_false, if_true]
    split <;> rfl
  · simp only [dispatch, yourId_nPfx_pageResult, detection_nPfx_pageResult,
      pageCount_nPfx_pageResult, isPrefixOf_append_self, Bool.false_eq_true,
      if_false, if_true]
    split <;> rfl

/-- C6: a line beginning with `"DETECTION:"` that splits into fewer than 5
colon fields is dropped with only log entries: the whole state change is
exactly two appended log events — result list, Session Identity, Active
Upload Client Id, alerts and button state all unchanged. -/
theorem malformed_detection_only_logs (st : AppState) (data : JStr)
    (hd : (strL "DETECTION:").isPrefixOf data = true)
    (hlen : (splitColon data).length < 5) :
    dispatch st data = { st with log := st.log ++
      [LogEvent.websocketReceived data, LogEvent.detectionProcessing] } := by
  rw [List.isPrefixOf_iff_prefix] at hd
  obtain ⟨t, rfl⟩ := hd
  have h5 : ¬ 5 ≤ (splitColon (strL "DETECTION:" ++ t)).length := by omega
  simp [dispatch, yourId_nPfx_detection, isPrefixOf_append_self, h5,
    List.append_assoc]

/-- Witness for C6 at the malformed line `"DETECTION:a"` (2 fields). -/
theorem malformed_detection_only_logs_witness :
    (strL "DETECTION:").isPrefixOf (strL "DETECTION:a") = true
  ∧ (splitColon (strL "DETECTION:a")).length < 5
  ∧ dispatch initState (strL "DETECTION:a") = { initState with log :=
      initState.log ++ [LogEvent.websocketReceived (strL "DETECTION:a"),
        LogEvent.detectionProcessing] } :=
  ⟨by decide, by decide,
   malformed_detection_only_logs initState (strL "DETECTION:a")
     (by decide) (by decide)⟩

/-- C7: when the confidence field (field 3) of a well-formed DETECTION line
does not parse as a base-10 float, the parsed confidence is the
not-a-number sentinel and the event still dispatches exactly as a
parseable one would: the list append for a matching clientId happens
unchanged. -/
theorem nan_confidence_still_dispatches (st : AppState) (data : JStr)
    (hd : (strL "DETECTION:").isPrefixOf data = true)
    (h5 : 5 ≤ (splitColon data).length)
    (hnan : jsParseFloat ((splitColon data).getD 3 []) = JNum.nan)
    (hmatch : st.currentClientId = some ((splitColon data).getD 1 [])) :
    detectionConfidence data = JNum.nan
  ∧ (dispatch st data).resultsList
      = st.resultsList ++ [joinWith (strL ":") ((splitColon data).drop 4)] := by
  constructor
  · exact hnan
  · rw [List.isPrefixOf_iff_prefix] at hd
    obtain ⟨t, rfl⟩ := hd
    exact dispatch_detection_resultsList st t h5

/-- Witness for C7: confidence field `"oops"` does not parse, the message
is still appended for the matching id. -/
theorem nan_confidence_still_dispatches_witness :
    (strL "DETECTION:").isPrefixOf (strL "DETECTION:abc123:done:oops:hello") = true
  ∧ 5 ≤ (splitColon (strL "DETECTION:abc123:done:oops:hello")).length
  ∧ jsParseFloat ((splitColon (strL "DETECTION:abc123:done:oops:hello")).getD 3 [])
      = JNum.nan
  ∧ ({ initState with currentClientId := some (strL "abc123") } :
      AppState).currentClientId =
      some ((splitColon (strL "DETECTION:abc123:done:oops:hello")).getD 1 [])
  ∧ detectionConfidence (strL "DETECTION:abc123:done:oops:hello") = JNum.nan
  ∧ (dispatch { initState with currentClientId := some (strL "abc123") }
      (strL "DETECTION:abc123:done:oops:hello")).resultsList
      = [strL "hello"] := by
  refine ⟨by decide, by decide, by decide, by decide, ?_, ?_⟩
  · exact (nan_confidence_still_dispatches
      { initState with currentClientId := some (strL "abc123") }
      (strL "DETECTION:abc123:done:oops:hello")
      (by decide) (by decide) (by decide) (by decide)).1
  · rw [(nan_confidence_still_dispatches
      { initState with currentClientId := some (strL "abc123") }
      (strL "DETECTION:abc123:done:oops:hello")
      (by decide) (by decide) (by decide) (by decide)).2]
    decide

/-- C8 is refuted: on an upload attempt that fails (here: the fetch rejects
with a network error), the Active Upload Client Id is NOT set to the newly
generated identifier — it keeps its previous value (`null`).  The code
assigns `currentClientId` only after a fully successful response. -/
theorem failed_upload_keeps_old_filter_key :
    (uploadClick initState true (strL "doc.pdf") 1234 0 0
      (FetchOutcome.netErr (strL "Failed to fetch"))).currentClientId = none
  ∧ (uploadClick initState true (strL "doc.pdf") 1234 0 0
      (FetchOutcome.netErr (strL "Failed to fetch"))).currentClientId
      ≠ some (generateClientId 0 0) := by
  refine ⟨by decide, by decide⟩

/-- C8 (amended): the Active Upload Client Id is set to the newly generated
identifier only when the upload succeeds (HTTP success and no
server-reported error); on a transport error, a non-success status, an
unreadable body, or a server-reported validation error it silently keeps
its previous value.  When it is set, the old filter key is silently
superseded. -/
theorem filter_key_set_only_on_success (st : AppState) (name : JStr)
    (size k n status : Nat) (m e : JStr) (sup : List JStr) (body : JsonOutcome) :
    (uploadClick st true name size k n (FetchOutcome.netErr m)).currentClientId
      = st.currentClientId
  ∧ (uploadClick st true name size k n
      (FetchOutcome.resp false status body)).currentClientId = st.currentClientId
  ∧ (uploadClick st true name size k n
      (FetchOutcome.resp true status (JsonOutcome.bad m))).currentClientId
      = st.currentClientId
  ∧ (uploadClick st true name size k n
      (FetchOutcome.resp true status
        (JsonOutcome.parsed ⟨some e, sup⟩))).currentClientId = st.currentClientId
  ∧ (uploadClick st true name size k n
      (FetchOutcome.resp true status
        (JsonOutcome.parsed ⟨none, sup⟩))).currentClientId
      = some (generateClientId k n) := by
  refine ⟨?_, ?_, ?_, ?_, ?_⟩ <;> simp [uploadClick, uploadCatch]

/-- C9 is refuted: the generator does not always produce 8 base-36
characters after `"client_"`.  When `Math.random()` returns `0` (a legal
value, `0 < 2 ^ 0`), `(0).toString(36)` is `"0"`, whose `.substr(2, 8)` is
empty, so the id is `"client_"` of length 7, not 15. -/
theorem zero_random_gives_short_id :
    (0 : Nat) < 2 ^ 0
  ∧ generateClientId 0 0 = strL "client_"
  ∧ (generateClientId 0 0).length = 7
  ∧ (generateClientId 0 0).length ≠ 15 := by
  refine ⟨by decide, by decide, by decide, by decide⟩

/-- C9 (amended): every generated identifier is `"client_"` followed by AT
MOST 8 base-36 characters: it always starts with `"client_"`, its length
is between 7 and 15, and every character after the prefix is in
`[0-9a-z]` — for every value of the underlying random source. -/
theorem generated_id_shape (k n : Nat) :
    (strL "client_").isPrefixOf (generateClientId k n) = true
  ∧ 7 ≤ (generateClientId k n).length
  ∧ (generateClientId k n).length ≤ 15
  ∧ ((generateClientId k n).drop 7).all isB36 = true := by
  refine ⟨isPrefixOf_append_self _ _, ?_, ?_, ?_⟩
  · unfold generateClientId
    rw [List.length_append]
    have h1 : (strL "client_").length = 7 := rfl
    omega
  · unfold generateClientId substrFrom2Len8
    rw [List.length_append]
    have h1 : (strL "client_").length = 7 := rfl
    have h2 := List.length_take_le 8 ((randToString36 k n).drop 2)
    omega
  · unfold generateClientId
    rw [show (7 : Nat) = (strL "client_").length from rfl, List.drop_left]
    rw [List.all_eq_true]
    intro c hc
    unfold substrFrom2Len8 at hc
    exact randToString36_fraction k n c ((List.take_sublist _ _).subset hc)

/-- C10: on a successful upload (HTTP success, readable JSON body, no
`error` field) the rendered result list is cleared — every entry from any
previous upload or unknown message is removed, and this happens inside the
upload handler, before any event of the new upload can be dispatched; on
every failing upload path the list is left exactly unchanged. -/
theorem upload_clears_results_only_on_success (st : AppState) (name : JStr)
    (size k n status : Nat) (m e : JStr) (sup : List JStr) (body : JsonOutcome) :
    (uploadClick st true name size k n
      (FetchOutcome.resp true status
        (JsonOutcome.parsed ⟨none, sup⟩))).resultsList = []
  ∧ (uploadClick st true name size k n (FetchOutcome.netErr m)).resultsList
      = st.resultsList
  ∧ (uploadClick st true name size k n
      (FetchOutcome.resp false status body)).resultsList = st.resultsList
  ∧ (uploadClick st true name size k n
      (FetchOutcome.resp true status (JsonOutcome.bad m))).resultsList
      = st.resultsList
  ∧ (uploadClick st true name size k n
      (FetchOutcome.resp true status
        (JsonOutcome.parsed ⟨some e, sup⟩))).resultsList = st.resultsList := by
  refine ⟨?_, ?_, ?_, ?_, ?_⟩ <;> simp [uploadClick, uploadCatch]
